import Mathlib

/-!
Shallow embedding of the workflow engine of `srstack/tiunimanager`,
transcribed from `workflow/aggregation.go`.

The aggregation walks a node graph (`WorkFlowDefine`) from the node named
"start", executing each node's business logic behind a recover boundary,
routing to `successEvent` / `failEvent` successors, and running a bounded
polling loop for `PollingNode` steps against a deployment status oracle.

External collaborators (persistence gateway, executor invocation, status
oracle, dangling map lookups) are observed through an event trace carried
in the aggregation state.  Persistence-call failures are logged and
swallowed in the source, so they have no control-flow effect and the calls
are recorded as plain events.  Wall-clock timestamps (`time.Now()`, the 3
second ticker period) have no control-flow effect either and are not
modelled; one polling-loop iteration stands for one ticker tick.

Go's unbounded recursion is embedded with a fuel parameter: `handle fuel`
returns the artificial value `(false, st)` only when the fuel is
exhausted, and every theorem below quantifies over enough fuel for the
behaviour it describes.
-/

set_option maxRecDepth 8000

namespace WorkflowEngine

/-- Workflow and node status values shared by workflow instances and node
records.  The `common/constants` package is not under `src/`; the enum is
the spec's status set, which is all `aggregation.go` uses. -/
inductive WorkFlowStatus where
  | Initializing
  | Processing
  | Finished
  | Error
  | Canceled
deriving DecidableEq, Repr

/-- Modelled from the spec: node return types (`NodeReturnType` of the
workflow package, not under `src/`).  The source type is a string-backed
enum with constants `SyncFuncNode` and `PollingNode`; `handle`'s switch
has an implicit default branch, so a further value (`CallbackNode`, the
repository's remaining constant) is kept to give that branch content. -/
inductive NodeReturnType where
  | SyncFuncNode
  | PollingNode
  | CallbackNode
deriving DecidableEq, Repr

/-- Error codes of the `common/errors` package referenced by
`aggregation.go` (the package is not under `src/`). -/
inductive TiEMErrorCode where
  | TIEM_FLOW_NOT_FOUND
  | TIEM_TASK_CANCELED
  | TIEM_PANIC
  | TIEM_WORKFLOW_NODE_POLLING_TIME_OUT
  | TIEM_TASK_FAILED
deriving DecidableEq, Repr

/-- Go `error` values as they reach the engine: an optional TiEM error
code plus a message.  Plain executor errors carry no code; values built by
`errors.NewError` / `errors.Error` carry one. -/
structure GoError where
  code : Option TiEMErrorCode
  msg : String
deriving DecidableEq, Repr

/-- Source `errors.NewError(code, msg)`. -/
def newError (c : TiEMErrorCode) (m : String) : GoError :=
  { code := some c, msg := m }

/-- Source `errors.Error(code)`: an error carrying just the code. -/
def codeError (c : TiEMErrorCode) : GoError :=
  { code := some c, msg := "" }

def codeText : TiEMErrorCode → String
  | TiEMErrorCode.TIEM_FLOW_NOT_FOUND => "TIEM_FLOW_NOT_FOUND"
  | TiEMErrorCode.TIEM_TASK_CANCELED => "TIEM_TASK_CANCELED"
  | TiEMErrorCode.TIEM_PANIC => "TIEM_PANIC"
  | TiEMErrorCode.TIEM_WORKFLOW_NODE_POLLING_TIME_OUT => "TIEM_WORKFLOW_NODE_POLLING_TIME_OUT"
  | TiEMErrorCode.TIEM_TASK_FAILED => "TIEM_TASK_FAILED"

/-- Rendering of a Go error value to the string stored in a failed node's
result (`e.Error()`); the exact format is immaterial, the rendering only
has to identify the error. -/
def renderGoError (e : GoError) : String :=
  match e.code with
  | some c => codeText c ++ ": " ++ e.msg
  | none => e.msg

/-- The persisted workflow instance record (`models/workflow.WorkFlow`,
declared outside `src/`; fields are the ones `aggregation.go` reads and
writes: ID, TenantId, Name, BizID, BizType, Status, Context). -/
structure WorkFlow where
  id : String
  name : String
  tenantId : String
  bizID : String
  bizType : String
  status : WorkFlowStatus
  context : String
deriving DecidableEq, Repr

/-- The persisted node record (`models/workflow.WorkFlowNode`, declared
outside `src/`; fields are the ones `aggregation.go` touches).  The
`time.Now()` start/end timestamps are external inputs with no control-flow
effect and are not modelled. -/
structure WorkFlowNode where
  tenantId : String
  status : WorkFlowStatus
  name : String
  bizID : String
  parentID : String
  returnType : NodeReturnType
  result : String
  operationID : String
deriving DecidableEq, Repr

/-- Modelled from the spec: `node.Processing()` of the missing
`models/workflow` package marks the node record `Processing`. -/
def nodeProcessing (node : WorkFlowNode) : WorkFlowNode :=
  { node with status := WorkFlowStatus.Processing }

/-- Modelled from the spec: `node.Success(...)` of the missing
`models/workflow` package marks the node record `Finished`, attaching the
given payload to the node result when one is supplied and leaving the
result untouched when none is (`node.Success()` / `node.Success(nil)`). -/
def nodeSuccess (node : WorkFlowNode) (payload : Option String) : WorkFlowNode :=
  { node with
    status := WorkFlowStatus.Finished
    result :=
      match payload with
      | some s => s
      | none => node.result }

/-- Modelled from the spec: `node.Fail(e)` of the missing `models/workflow`
package marks the node record `Error` and stores the error text as the
node result (which `handleTaskError` later reads back as `node.Result`). -/
def nodeFail (node : WorkFlowNode) (e : GoError) : WorkFlowNode :=
  { node with status := WorkFlowStatus.Error, result := renderGoError e }

/-- The string-keyed business-data mapping of a `FlowContext`
(`map[string]interface def`); the dynamically typed values are opaque to the
engine and are modelled as strings. -/
abbrev FlowData := List (String × String)

/-- Source `FlowContext.GetData`. -/
def getData (d : FlowData) (key : String) : Option String :=
  (d.find? (fun p => p.1 == key)).map Prod.snd

/-- Source `FlowContext.SetData` (map assignment: overwrite the key). -/
def setData (d : FlowData) (key : String) (value : String) : FlowData :=
  (key, value) :: d.filter (fun p => p.1 != key)

/-- Outcome of one executor invocation: normal return with no error, a
returned error, or a Go panic escaping the executor. -/
inductive ExecOutcome where
  | ok
  | err (e : GoError)
  | panicked (msg : String)

/-- A node's business logic: the source `NodeExecutor` receives the node
record and the flow context by pointer and may mutate both, so it is
modelled as a function returning the outcome together with the updated
node record and flow data (for a panic, the mutations performed before the
panic point). -/
abbrev Executor := WorkFlowNode → FlowData → ExecOutcome × WorkFlowNode × FlowData

/-- Modelled from the spec: a node definition (`NodeDefine` of the
workflow package, declared outside `src/`): name, return type, executor,
and the names of the success and failure successor nodes (empty string
means none). -/
structure NodeDefine where
  name : String
  successEvent : String
  failEvent : String
  returnType : NodeReturnType
  executor : Executor

/-- Modelled from the spec: a workflow definition (`WorkFlowDefine` of the
workflow package, declared outside `src/`): a flow name plus the node-name
to node-definition mapping.  The Go map is embedded as an association
list; `lookupNode` is Go map indexing, with `none` for a missing key (a
nil `*NodeDefine` in the source). -/
structure WorkFlowDefine where
  flowName : String
  taskNodes : List (String × NodeDefine)

def lookupNode (d : WorkFlowDefine) (name : String) : Option NodeDefine :=
  (d.taskNodes.find? (fun p => p.1 == name)).map Prod.snd

/-- Observable interactions of one run, recorded in order: persistence
calls (`CreateWorkFlowNode`, `UpdateWorkFlowDetail`), executor
invocations, status-oracle queries (with the polling sequence number of
the query), and successor-map lookups of a non-empty name that found no
node (a nil result of `TaskNodes[name]`, passed on to `handle`). -/
inductive Event where
  | createWorkFlowNode (name : String)
  | updateWorkFlowDetail
  | executorInvoked (name : String)
  | oracleQueried (operationID : String) (seq : Nat)
  | danglingLookup (name : String)
deriving DecidableEq, Repr

/-- Status of a long-running deployment operation as reported by the
oracle (`deployment` package, not under `src/`; the spec's interface is
`Running | Finished | Error`). -/
inductive OpStatus where
  | Running
  | Finished
  | Error
deriving DecidableEq, Repr

/-- Reply record of `deployment.M.GetStatus`: status, result payload and
error string. -/
structure OperationReply where
  status : OpStatus
  result : String
  errorStr : String
deriving DecidableEq, Repr

/-- Outcome of one `GetStatus` call: the call itself may fail (the `err`
return value), or it returns a reply record. -/
inductive OracleOutcome where
  | callError (msg : String)
  | reply (op : OperationReply)
deriving DecidableEq, Repr

/-- Environment of a run: the deployment status oracle, indexed by the
polling sequence number of the query and the operation ID, and the value
of the `maxPollingSequence` constant (declared outside `src/`, so the
bound is kept as a parameter; no claim depends on its concrete value). -/
structure Env where
  oracle : Nat → String → OracleOutcome
  maxPollingSequence : Nat

/-- The `WorkFlowAggregation` state: the workflow record, the (read-only)
definition, the current-node pointer (an index into `nodes`, modelling the
Go pointer `CurrentNode` which aliases an entry of `Nodes`), the ordered
node history, the flow data, the recorded flow error, and the event
trace. -/
structure WorkFlowAggregation where
  flow : WorkFlow
  define : WorkFlowDefine
  currentNode : Option Nat
  nodes : List WorkFlowNode
  flowData : FlowData
  flowError : Option String
  events : List Event

def emptyNode : WorkFlowNode :=
  { tenantId := "", status := WorkFlowStatus.Initializing, name := "", bizID := ""
    parentID := "", returnType := NodeReturnType.SyncFuncNode, result := "", operationID := "" }

/-- Dereference a node index (the Go code only ever dereferences valid
pointers; out-of-range reads return a default record). -/
def getNodeAt (st : WorkFlowAggregation) (i : Nat) : WorkFlowNode :=
  st.nodes.getD i emptyNode

/-- Write through a node pointer: mutating the Go node also mutates the
aliased entry of `flow.Nodes`. -/
def setNodeAt (st : WorkFlowAggregation) (i : Nat) (n : WorkFlowNode) : WorkFlowAggregation :=
  { st with nodes := st.nodes.set i n }

/-- Stand-in for `json.Marshal(flow.Context.FlowData)`; the serialized
text is stored in the workflow record's context field and never read back
by the engine, so any total rendering is faithful (the source logs and
swallows marshal errors). -/
def serializeFlowData (d : FlowData) : String :=
  String.intercalate "," (d.map (fun p => p.1 ++ "=" ++ p.2))

/-- The node record built at the top of `handle` (aggregation.go:192-202):
status `Initializing`, name and return type from the definition, tenant /
biz / parent from the workflow record. -/
def initialNode (st : WorkFlowAggregation) (nd : NodeDefine) : WorkFlowNode :=
  { tenantId := st.flow.tenantId
    status := WorkFlowStatus.Initializing
    name := nd.name
    bizID := st.flow.bizID
    parentID := st.flow.id
    returnType := nd.returnType
    result := ""
    operationID := "" }

/-- The `CreateWorkFlowNode` persistence call of `handle`
(aggregation.go:204-207); its error is logged and swallowed, so only the
call is recorded. -/
def afterCreate (st : WorkFlowAggregation) (nd : NodeDefine) : WorkFlowAggregation :=
  { st with events := st.events ++ [Event.createWorkFlowNode nd.name] }

/-- Go map indexing `flow.Define.TaskNodes[name]` at a successor-reference
site, with the nil result of a non-empty missing name recorded as a
`danglingLookup` event (pure observation; the source silently passes the
nil on to `handle`). -/
def nextNode (st : WorkFlowAggregation) (name : String) : Option NodeDefine × WorkFlowAggregation :=
  match lookupNode st.define name with
  | some nd => (some nd, st)
  | none =>
    if name = "" then (none, st)
    else (none, { st with events := st.events ++ [Event.danglingLookup name] })

/-- Append observation events to the trace (used to spell out the states
the theorems predict). -/
def addEvents (st : WorkFlowAggregation) (es : List Event) : WorkFlowAggregation :=
  { st with events := st.events ++ es }

/-- Transcription of `executeTask` (aggregation.go:145-176): set the
current-node pointer, append the node to the history, mark it
`Processing`, serialize the flow data into the workflow record, issue the
`UpdateWorkFlowDetail` call, then invoke the executor.  A returned error
fails the node and is returned; a panic is recovered, converted to a
generic `TIEM_PANIC` error which fails the node and is returned
(mutations made before the panic point persist). -/
def executeTask (st : WorkFlowAggregation) (node : WorkFlowNode) (nd : NodeDefine) :
    Option GoError × WorkFlowAggregation :=
  let idx := st.nodes.length
  let node1 := nodeProcessing node
  let st1 : WorkFlowAggregation :=
    { st with
      currentNode := some idx
      nodes := st.nodes ++ [node1]
      flow := { st.flow with context := serializeFlowData st.flowData }
      events := st.events ++ [Event.updateWorkFlowDetail, Event.executorInvoked nd.name] }
  match nd.executor node1 st1.flowData with
  | (ExecOutcome.ok, node2, data2) =>
    (none, { st1 with nodes := st1.nodes.set idx node2, flowData := data2 })
  | (ExecOutcome.err e, node2, data2) =>
    (some e, { st1 with nodes := st1.nodes.set idx (nodeFail node2 e), flowData := data2 })
  | (ExecOutcome.panicked msg, node2, data2) =>
    let e := newError TiEMErrorCode.TIEM_PANIC msg
    (some e, { st1 with nodes := st1.nodes.set idx (nodeFail node2 e), flowData := data2 })

/-- First statement of `handleTaskError` (aggregation.go:179): the failed
node's result becomes the workflow-level flow error. -/
def recordFlowError (st : WorkFlowAggregation) (idx : Nat) : WorkFlowAggregation :=
  { st with flowError := some (getNodeAt st idx).result }

/-- Body of `handleTaskError` (aggregation.go:178-185), parametrized by
the `handle` continuation so that the mutual recursion of the source
untangles into structural recursion on fuel: record the failed node's
result as the workflow-level flow error; recurse into the fail-event node
when one is named, otherwise only log.  The recursion's boolean result is
discarded, as in the source. -/
def taskErrorWith
    (handleF : WorkFlowAggregation → Option NodeDefine → Bool × WorkFlowAggregation)
    (st : WorkFlowAggregation) (idx : Nat) (nd : NodeDefine) : WorkFlowAggregation :=
  let st1 := recordFlowError st idx
  if nd.failEvent ≠ "" then
    let p := nextNode st1 nd.failEvent
    (handleF p.2 p.1).2
  else
    st1

/-- Body of the `PollingNode` ticker loop of `handle`
(aggregation.go:222-255), parametrized by the `handle` continuation and
running on its own fuel (one unit per ticker tick; the source loop is
unbounded in time but bounded in ticks by the sequence check).  `seq` is
the value of the sequence counter for the current tick (the source
increments it at the top of the body, so the first tick runs with
sequence 1).  On each tick: a sequence beyond `maxPollingSequence` fails
the node with the polling-timeout error and routes to the task-error
handler; otherwise the oracle is queried by the node's operation ID — a
call error or an `Error` reply fails the node with a task-failure error
and routes to the task-error handler, a `Finished` reply marks the node
successful (attaching the non-empty result payload) and recurses into the
success event, and any other reply loops to the next tick. -/
def pollingLoopWith
    (handleF : WorkFlowAggregation → Option NodeDefine → Bool × WorkFlowAggregation)
    (env : Env) :
    Nat → WorkFlowAggregation → Nat → NodeDefine → Nat → Bool × WorkFlowAggregation
  | 0, st, _, _, _ => (false, st)
  | fuel + 1, st, idx, nd, seq =>
    if seq > env.maxPollingSequence then
      let st1 := setNodeAt st idx
        (nodeFail (getNodeAt st idx) (codeError TiEMErrorCode.TIEM_WORKFLOW_NODE_POLLING_TIME_OUT))
      (false, taskErrorWith handleF st1 idx nd)
    else
      let opId := (getNodeAt st idx).operationID
      let st1 := addEvents st [Event.oracleQueried opId seq]
      match env.oracle seq opId with
      | OracleOutcome.callError msg =>
        let st2 := setNodeAt st1 idx
          (nodeFail (getNodeAt st1 idx) (newError TiEMErrorCode.TIEM_TASK_FAILED msg))
        (false, taskErrorWith handleF st2 idx nd)
      | OracleOutcome.reply op =>
        if op.status = OpStatus.Error then
          let st2 := setNodeAt st1 idx
            (nodeFail (getNodeAt st1 idx) (newError TiEMErrorCode.TIEM_TASK_FAILED op.errorStr))
          (false, taskErrorWith handleF st2 idx nd)
        else if op.status = OpStatus.Finished then
          let payload := if op.result ≠ "" then some op.result else none
          let st2 := setNodeAt st1 idx (nodeSuccess (getNodeAt st1 idx) payload)
          let p := nextNode st2 nd.successEvent
          handleF p.2 p.1
        else
          pollingLoopWith handleF env fuel st1 idx nd (seq + 1)

/-- Transcription of `handle` (aggregation.go:187-258), with fuel for the
unbounded successor recursion of the source; at fuel 0 the artificial
value `(false, st)` is returned (all theorems supply enough fuel).  A nil
node definition marks the workflow `Finished` and returns true.
Otherwise the node record is built and persisted, the node executed; an
execution error routes to the task-error handler and returns false.  On
success the return type dispatches: `SyncFuncNode` marks the node
successful and recurses into the success event; `PollingNode` recurses
into the success event immediately when the executor already drove the
node to `Finished` and otherwise enters the polling loop (with loop fuel
taken from the remaining fuel — the loop itself terminates within
`maxPollingSequence + 1` ticks); any other return type returns true
without touching the node again (the switch's implicit default falling
through to `return true`). -/
def handle : Nat → Env → WorkFlowAggregation → Option NodeDefine → Bool × WorkFlowAggregation
  | 0, _, st, _ => (false, st)
  | fuel + 1, env, st, nd? =>
    match nd? with
    | none => (true, { st with flow := { st.flow with status := WorkFlowStatus.Finished } })
    | some nd =>
      let idx := st.nodes.length
      let st1 := afterCreate st nd
      match executeTask st1 (initialNode st nd) nd with
      | (some _, st2) =>
        (false, taskErrorWith (fun s n => handle fuel env s n) st2 idx nd)
      | (none, st2) =>
        match nd.returnType with
        | NodeReturnType.SyncFuncNode =>
          let st3 := setNodeAt st2 idx (nodeSuccess (getNodeAt st2 idx) none)
          let p := nextNode st3 nd.successEvent
          handle fuel env p.2 p.1
        | NodeReturnType.PollingNode =>
          if (getNodeAt st2 idx).status = WorkFlowStatus.Finished then
            let p := nextNode st2 nd.successEvent
            handle fuel env p.2 p.1
          else
            pollingLoopWith (fun s n => handle fuel env s n) env fuel st2 idx nd 1
        | NodeReturnType.CallbackNode => (true, st2)

/-- Source `handleTaskError` with the recursion budget made explicit: it
recurses into `handle` with the given fuel. -/
def handleTaskError (fuel : Nat) (env : Env) (st : WorkFlowAggregation) (idx : Nat)
    (nd : NodeDefine) : WorkFlowAggregation :=
  taskErrorWith (fun s n => handle fuel env s n) st idx nd

/-- The polling loop with the `handle` recursion budget made explicit. -/
def pollingLoop (fuel : Nat) (env : Env) (loopFuel : Nat) (st : WorkFlowAggregation) (idx : Nat)
    (nd : NodeDefine) (seq : Nat) : Bool × WorkFlowAggregation :=
  pollingLoopWith (fun s n => handle fuel env s n) env loopFuel st idx nd seq

/-- Transcription of `complete` (aggregation.go:127-133): the receiver is
a value copy but `Flow` is a pointer, so the status write is visible. -/
def complete (st : WorkFlowAggregation) (success : Bool) : WorkFlowAggregation :=
  if success then
    { st with flow := { st.flow with status := WorkFlowStatus.Finished } }
  else
    { st with flow := { st.flow with status := WorkFlowStatus.Error } }

/-- First statement of `start` (aggregation.go:88): mark the workflow
`Processing`. -/
def startProcessing (st : WorkFlowAggregation) : WorkFlowAggregation :=
  { st with flow := { st.flow with status := WorkFlowStatus.Processing } }

/-- Transcription of `start` (aggregation.go:87-96): mark the workflow
`Processing`, handle the node named "start", apply `complete` to the
boolean the walk returned, and issue the final `UpdateWorkFlowDetail`
call.  The Go function returns nothing; the boolean of the top-level
`handle` call (the local `result`) is exposed as the first component for
specification. -/
def start (fuel : Nat) (env : Env) (st : WorkFlowAggregation) : Bool × WorkFlowAggregation :=
  let st1 := startProcessing st
  let r := handle fuel env st1 (lookupNode st1.define "start")
  let st2 := complete r.2 r.1
  (r.1, { st2 with events := st2.events ++ [Event.updateWorkFlowDetail] })

/-- Transcription of `destroy` (aggregation.go:115-125): mark the workflow
`Canceled`; when a current node exists, fail it with a
`TIEM_TASK_CANCELED` error carrying the supplied reason; issue the
`UpdateWorkFlowDetail` call. -/
def destroy (st : WorkFlowAggregation) (reason : String) : WorkFlowAggregation :=
  let st1 := { st with flow := { st.flow with status := WorkFlowStatus.Canceled } }
  let st2 :=
    match st1.currentNode with
    | some i =>
      setNodeAt st1 i (nodeFail (getNodeAt st1 i) (newError TiEMErrorCode.TIEM_TASK_CANCELED reason))
    | none => st1
  { st2 with events := st2.events ++ [Event.updateWorkFlowDetail] }

/-- Modelled from the spec: the definition-build-time validation (the
definition builder is not under `src/`): every non-empty
`successEvent` / `failEvent` of every task node must name a key present
in `taskNodes`. -/
def validDefine (d : WorkFlowDefine) : Bool :=
  d.taskNodes.all fun p =>
    (p.2.successEvent = "" || (lookupNode d p.2.successEvent).isSome) &&
    (p.2.failEvent = "" || (lookupNode d p.2.failEvent).isSome)

/-- The oracle-query events produced by `k` consecutive polling ticks
starting at sequence number `seq`. -/
def queryEvents (opId : String) : Nat → Nat → List Event
  | _, 0 => []
  | seq, k + 1 => Event.oracleQueried opId seq :: queryEvents opId (seq + 1) k

/-- State predicted after the `SyncFuncNode` success marking of `handle`
(aggregation.go:216): the node at `idx` is marked successful with no
payload. -/
def markSyncSuccess (st : WorkFlowAggregation) (idx : Nat) : WorkFlowAggregation :=
  setNodeAt st idx (nodeSuccess (getNodeAt st idx) none)

/-! Basic facts about the embedding used throughout the claim proofs. -/

theorem getNodeAt_setNodeAt_self (st : WorkFlowAggregation) (i : Nat) (n : WorkFlowNode)
    (h : i < st.nodes.length) : getNodeAt (setNodeAt st i n) i = n := by
  simp [getNodeAt, setNodeAt, List.getD_eq_getElem?_getD, List.getElem?_set_self h]

theorem getNodeAt_setNodeAt_ne (st : WorkFlowAggregation) (i j : Nat) (n : WorkFlowNode)
    (h : i ≠ j) : getNodeAt (setNodeAt st i n) j = getNodeAt st j := by
  simp [getNodeAt, setNodeAt, List.getD_eq_getElem?_getD, List.getElem?_set_ne h]

theorem startProcessing_nodes (st : WorkFlowAggregation) :
    (startProcessing st).nodes = st.nodes := rfl

theorem startProcessing_define (st : WorkFlowAggregation) :
    (startProcessing st).define = st.define := rfl

theorem recordFlowError_nodes (st : WorkFlowAggregation) (i : Nat) :
    (recordFlowError st i).nodes = st.nodes := rfl

theorem recordFlowError_define (st : WorkFlowAggregation) (i : Nat) :
    (recordFlowError st i).define = st.define := rfl

theorem setNodeAt_define (st : WorkFlowAggregation) (i : Nat) (n : WorkFlowNode) :
    (setNodeAt st i n).define = st.define := rfl

theorem afterCreate_nodes (st : WorkFlowAggregation) (nd : NodeDefine) :
    (afterCreate st nd).nodes = st.nodes := rfl

theorem afterCreate_define (st : WorkFlowAggregation) (nd : NodeDefine) :
    (afterCreate st nd).define = st.define := rfl

/-- Structural facts about `executeTask`: it preserves the definition and
the workflow status, appends exactly one node record, records exactly the
update-detail and executor-invocation events, and points the current-node
pointer at the new record. -/
theorem executeTask_shape (st : WorkFlowAggregation) (node : WorkFlowNode) (nd : NodeDefine) :
    (executeTask st node nd).2.define = st.define ∧
    (executeTask st node nd).2.nodes.length = st.nodes.length + 1 ∧
    (executeTask st node nd).2.events =
      st.events ++ [Event.updateWorkFlowDetail, Event.executorInvoked nd.name] ∧
    (executeTask st node nd).2.flow.status = st.flow.status ∧
    (executeTask st node nd).2.currentNode = some st.nodes.length := by
  rcases h : nd.executor (nodeProcessing node) st.flowData with ⟨o, n2, d2⟩
  cases o <;> simp [executeTask, h]

/-- When `executeTask` reports an error (returned or recovered from a
panic), the new node record is left failed. -/
theorem executeTask_err_status (st : WorkFlowAggregation) (node : WorkFlowNode)
    (nd : NodeDefine) (e : GoError) (st' : WorkFlowAggregation)
    (h : executeTask st node nd = (some e, st')) :
    (getNodeAt st' st.nodes.length).status = WorkFlowStatus.Error := by
  rcases hex : nd.executor (nodeProcessing node) st.flowData with ⟨o, n2, d2⟩
  cases o <;> simp [executeTask, hex] at h <;>
    simp [← h.2, getNodeAt, List.getD_eq_getElem?_getD,
      List.getElem?_set_self (by simp : st.nodes.length < (st.nodes ++ [nodeProcessing node]).length),
      nodeFail]

/-- Node records created before an `executeTask` call are untouched by
it. -/
theorem executeTask_preserves_earlier (st : WorkFlowAggregation) (node : WorkFlowNode)
    (nd : NodeDefine) (i : Nat) (h : i < st.nodes.length) :
    getNodeAt (executeTask st node nd).2 i = getNodeAt st i := by
  rcases hex : nd.executor (nodeProcessing node) st.flowData with ⟨o, n2, d2⟩
  cases o <;>
    simp [executeTask, hex, getNodeAt, List.getD_eq_getElem?_getD,
      List.getElem?_set_ne (by omega : st.nodes.length ≠ i),
      List.getElem?_append_left h]

/-- Whether an oracle outcome is a reply with status `Running` (the
"still running, keep polling" branch of the loop). -/
def OracleOutcome.isRunningReply : OracleOutcome → Bool
  | OracleOutcome.reply op => op.status == OpStatus.Running
  | _ => false

theorem isRunningReply_iff (o : OracleOutcome) :
    o.isRunningReply = true ↔
      ∃ res es, o = OracleOutcome.reply ⟨OpStatus.Running, res, es⟩ := by
  cases o with
  | callError m => simp [OracleOutcome.isRunningReply]
  | reply op =>
    rcases op with ⟨s, r, e⟩
    cases s <;> simp [OracleOutcome.isRunningReply]

theorem getNodeAt_addEvents (st : WorkFlowAggregation) (es : List Event) (i : Nat) :
    getNodeAt (addEvents st es) i = getNodeAt st i := rfl

theorem queryEvents_snoc (opId : String) :
    ∀ (k seq : Nat),
      queryEvents opId seq k ++ [Event.oracleQueried opId (seq + k)] =
        queryEvents opId seq (k + 1) := by
  intro k
  induction k with
  | zero => intro seq; simp [queryEvents]
  | succ k ih =>
    intro seq
    have h : seq + (k + 1) = (seq + 1) + k := by omega
    simp only [queryEvents, List.cons_append, h, ih (seq + 1)]

/-- Advancing the polling loop across `k` consecutive ticks on which the
oracle reports `Running`: each tick consumes one unit of loop fuel,
appends one oracle-query event, and increments the sequence counter. -/
theorem pollingLoopWith_running_advance
    (handleF : WorkFlowAggregation → Option NodeDefine → Bool × WorkFlowAggregation)
    (env : Env) (idx : Nat) (nd : NodeDefine) :
    ∀ (k fuel seq : Nat) (st : WorkFlowAggregation),
      (∀ j, seq ≤ j → j < seq + k →
        (env.oracle j (getNodeAt st idx).operationID).isRunningReply = true) →
      seq + k ≤ env.maxPollingSequence + 1 →
      pollingLoopWith handleF env (k + fuel) st idx nd seq =
        pollingLoopWith handleF env fuel
          (addEvents st (queryEvents (getNodeAt st idx).operationID seq k)) idx nd (seq + k) := by
  intro k
  induction k with
  | zero =>
    intro fuel seq st _ _
    simp [addEvents, queryEvents]
  | succ k ih =>
    intro fuel seq st hrun hbound
    have hle : ¬ seq > env.maxPollingSequence := by omega
    obtain ⟨res, es, hrep⟩ := (isRunningReply_iff _).1 (hrun seq (le_refl _) (by omega))
    have e1 : (k + 1) + fuel = (k + fuel) + 1 := by omega
    rw [e1]
    have hstep : pollingLoopWith handleF env ((k + fuel) + 1) st idx nd seq =
        pollingLoopWith handleF env (k + fuel)
          (addEvents st [Event.oracleQueried (getNodeAt st idx).operationID seq]) idx nd
          (seq + 1) := by
      simp [pollingLoopWith, hle, hrep, addEvents]
    rw [hstep]
    have hih := ih fuel (seq + 1)
      (addEvents st [Event.oracleQueried (getNodeAt st idx).operationID seq])
      (by
        intro j h1 h2
        rw [getNodeAt_addEvents]
        exact hrun j (by omega) (by omega))
      (by omega)
    rw [hih, getNodeAt_addEvents]
    have e2 : (seq + 1) + k = seq + (k + 1) := by omega
    rw [e2]
    simp [addEvents, queryEvents, List.append_assoc]

/-! Machinery for the validation claim: a validated definition never
produces a dangling successor lookup during execution. -/

/-- No `danglingLookup` event is added between two states. -/
def noNewDangling (st st' : WorkFlowAggregation) : Prop :=
  ∀ nm, Event.danglingLookup nm ∈ st'.events → Event.danglingLookup nm ∈ st.events

theorem noNewDangling_trans (a b c : WorkFlowAggregation)
    (h1 : noNewDangling a b) (h2 : noNewDangling b c) : noNewDangling a c :=
  fun nm h => h1 nm (h2 nm h)

theorem noNewDangling_of_events_eq (a b : WorkFlowAggregation)
    (h : b.events = a.events) : noNewDangling a b := by
  intro nm hm
  rw [h] at hm
  exact hm

theorem lookupNode_mem (d : WorkFlowDefine) (nm : String) (nd : NodeDefine)
    (h : lookupNode d nm = some nd) : nd ∈ d.taskNodes.map Prod.snd := by
  rw [lookupNode, Option.map_eq_some'] at h
  obtain ⟨p, hp, hpe⟩ := h
  rw [← hpe]
  exact List.mem_map_of_mem Prod.snd (List.mem_of_find?_eq_some hp)

/-- A validated definition resolves every non-empty successor reference
of its member nodes. -/
theorem validDefine_resolves (d : WorkFlowDefine) (hv : validDefine d = true)
    (nd : NodeDefine) (hmem : nd ∈ d.taskNodes.map Prod.snd) :
    (nd.successEvent ≠ "" → (lookupNode d nd.successEvent).isSome = true) ∧
    (nd.failEvent ≠ "" → (lookupNode d nd.failEvent).isSome = true) := by
  rw [List.mem_map] at hmem
  obtain ⟨p, hp, hpe⟩ := hmem
  have hall := (List.all_eq_true.mp hv) p hp
  rw [hpe] at hall
  simp only [Bool.and_eq_true, Bool.or_eq_true, decide_eq_true_eq] at hall
  constructor
  · intro hne
    rcases hall.1 with h | h
    · exact absurd h hne
    · exact h
  · intro hne
    rcases hall.2 with h | h
    · exact absurd h hne
    · exact h

/-- Under validity of the definition, a successor lookup adds no event and
yields (at most) a member node. -/
theorem nextNode_valid (st : WorkFlowAggregation) (name : String)
    (hres : name ≠ "" → (lookupNode st.define name).isSome = true) :
    (nextNode st name).2 = st ∧
    (∀ nd, (nextNode st name).1 = some nd → nd ∈ st.define.taskNodes.map Prod.snd) := by
  unfold nextNode
  cases h : lookupNode st.define name with
  | some nd =>
    exact ⟨rfl, fun nd' h' => by
      simp only [Option.some.injEq] at h'
      rw [← h']
      exact lookupNode_mem st.define name nd h⟩
  | none =>
    by_cases hn : name = ""
    · simp [hn]
    · have := hres hn
      rw [h] at this
      simp at this

theorem noNewDangling_addEvents (st : WorkFlowAggregation) (es : List Event)
    (h : ∀ nm, Event.danglingLookup nm ∉ es) : noNewDangling st (addEvents st es) := by
  intro nm hm
  simp only [addEvents, List.mem_append] at hm
  rcases hm with hm | hm
  · exact hm
  · exact absurd hm (h nm)

/-- The property the no-dangling induction carries for the `handle`
continuation: on a validated definition and a member (or absent) node, the
definition is preserved and no dangling-lookup event is added. -/
def handleProp (handleF : WorkFlowAggregation → Option NodeDefine → Bool × WorkFlowAggregation) :
    Prop :=
  ∀ s n, validDefine s.define = true →
    (∀ nd, n = some nd → nd ∈ s.define.taskNodes.map Prod.snd) →
    (handleF s n).2.define = s.define ∧ noNewDangling s (handleF s n).2

theorem taskErrorWith_no_dangling
    (handleF : WorkFlowAggregation → Option NodeDefine → Bool × WorkFlowAggregation)
    (hF : handleProp handleF) (st : WorkFlowAggregation) (idx : Nat) (nd : NodeDefine)
    (hv : validDefine st.define = true) (hmem : nd ∈ st.define.taskNodes.map Prod.snd) :
    (taskErrorWith handleF st idx nd).define = st.define ∧
    noNewDangling st (taskErrorWith handleF st idx nd) := by
  by_cases hf : nd.failEvent ≠ ""
  · have hres := (validDefine_resolves st.define hv nd hmem).2 hf
    have hnn := nextNode_valid (recordFlowError st idx) nd.failEvent (fun _ => hres)
    rcases hnn with ⟨hstate, hmem'⟩
    have hH := hF (nextNode (recordFlowError st idx) nd.failEvent).2
      (nextNode (recordFlowError st idx) nd.failEvent).1
      (by rw [hstate]; exact hv)
      (by
        intro nd' h'
        rw [hstate]
        exact hmem' nd' h')
    have hgoal : taskErrorWith handleF st idx nd =
        (handleF (nextNode (recordFlowError st idx) nd.failEvent).2
          (nextNode (recordFlowError st idx) nd.failEvent).1).2 := by
      unfold taskErrorWith
      rw [if_pos hf]
    rw [hgoal]
    constructor
    · rw [hH.1, hstate]
      rfl
    · refine noNewDangling_trans st (nextNode (recordFlowError st idx) nd.failEvent).2 _ ?_ hH.2
      rw [hstate]
      exact noNewDangling_of_events_eq _ _ rfl
  · have hgoal : taskErrorWith handleF st idx nd = recordFlowError st idx := by
      unfold taskErrorWith
      rw [if_neg hf]
    rw [hgoal]
    exact ⟨rfl, noNewDangling_of_events_eq _ _ rfl⟩

theorem pollingLoopWith_no_dangling
    (handleF : WorkFlowAggregation → Option NodeDefine → Bool × WorkFlowAggregation)
    (hF : handleProp handleF) (env : Env) :
    ∀ (loopFuel : Nat) (st : WorkFlowAggregation) (idx : Nat) (nd : NodeDefine) (seq : Nat),
      validDefine st.define = true →
      nd ∈ st.define.taskNodes.map Prod.snd →
      (pollingLoopWith handleF env loopFuel st idx nd seq).2.define = st.define ∧
      noNewDangling st (pollingLoopWith handleF env loopFuel st idx nd seq).2 := by
  intro loopFuel
  induction loopFuel with
  | zero =>
    intro st idx nd seq hv hmem
    exact ⟨rfl, fun nm h => h⟩
  | succ loopFuel ih =>
    intro st idx nd seq hv hmem
    simp only [pollingLoopWith]
    by_cases hgt : seq > env.maxPollingSequence
    · rw [if_pos hgt]
      have hT := taskErrorWith_no_dangling handleF hF
        (setNodeAt st idx (nodeFail (getNodeAt st idx)
          (codeError TiEMErrorCode.TIEM_WORKFLOW_NODE_POLLING_TIME_OUT))) idx nd hv hmem
      refine ⟨hT.1, ?_⟩
      refine noNewDangling_trans _ _ _ ?_ hT.2
      exact noNewDangling_of_events_eq _ _ rfl
    · rw [if_neg hgt]
      have hq : noNewDangling st (addEvents st
          [Event.oracleQueried (getNodeAt st idx).operationID seq]) :=
        noNewDangling_addEvents st _ (by intro nm; simp)
      cases ho : env.oracle seq (getNodeAt st idx).operationID with
      | callError msg =>
        simp only [ho]
        have hT := taskErrorWith_no_dangling handleF hF
          (setNodeAt (addEvents st [Event.oracleQueried (getNodeAt st idx).operationID seq]) idx
            (nodeFail (getNodeAt (addEvents st
              [Event.oracleQueried (getNodeAt st idx).operationID seq]) idx)
              (newError TiEMErrorCode.TIEM_TASK_FAILED msg))) idx nd hv hmem
        refine ⟨hT.1, ?_⟩
        refine noNewDangling_trans _ _ _ ?_ hT.2
        exact noNewDangling_trans _ _ _ hq (noNewDangling_of_events_eq _ _ rfl)
      | reply op =>
        simp only [ho]
        by_cases he : op.status = OpStatus.Error
        · rw [if_pos he]
          have hT := taskErrorWith_no_dangling handleF hF
            (setNodeAt (addEvents st [Event.oracleQueried (getNodeAt st idx).operationID seq]) idx
              (nodeFail (getNodeAt (addEvents st
                [Event.oracleQueried (getNodeAt st idx).operationID seq]) idx)
                (newError TiEMErrorCode.TIEM_TASK_FAILED op.errorStr))) idx nd hv hmem
          refine ⟨hT.1, ?_⟩
          refine noNewDangling_trans _ _ _ ?_ hT.2
          exact noNewDangling_trans _ _ _ hq (noNewDangling_of_events_eq _ _ rfl)
        · rw [if_neg he]
          by_cases hfin : op.status = OpStatus.Finished
          · rw [if_pos hfin]
            have hres := (validDefine_resolves st.define hv nd hmem).1
            have hnn := nextNode_valid
              (setNodeAt (addEvents st
                [Event.oracleQueried (getNodeAt st idx).operationID seq]) idx
                (nodeSuccess (getNodeAt (addEvents st
                  [Event.oracleQueried (getNodeAt st idx).operationID seq]) idx)
                  (if op.result ≠ "" then some op.result else none)))
              nd.successEvent (fun h => hres h)
            rcases hnn with ⟨hstate, hmem'⟩
            have hH := hF
              (nextNode (setNodeAt (addEvents st
                [Event.oracleQueried (getNodeAt st idx).operationID seq]) idx
                (nodeSuccess (getNodeAt (addEvents st
                  [Event.oracleQueried (getNodeAt st idx).operationID seq]) idx)
                  (if op.result ≠ "" then some op.result else none))) nd.successEvent).2
              (nextNode (setNodeAt (addEvents st
                [Event.oracleQueried (getNodeAt st idx).operationID seq]) idx
                (nodeSuccess (getNodeAt (addEvents st
                  [Event.oracleQueried (getNodeAt st idx).operationID seq]) idx)
                  (if op.result ≠ "" then some op.result else none))) nd.successEvent).1
              (by rw [hstate]; exact hv)
              (by
                intro nd' h'
                rw [hstate]
                exact hmem' nd' h')
            refine ⟨by rw [hH.1, hstate]; rfl, ?_⟩
            refine noNewDangling_trans _ _ _ ?_ hH.2
            rw [hstate]
            exact noNewDangling_trans _ _ _ hq (noNewDangling_of_events_eq _ _ rfl)
          · rw [if_neg hfin]
            have hrec := ih (addEvents st
              [Event.oracleQueried (getNodeAt st idx).operationID seq]) idx nd (seq + 1) hv hmem
            exact ⟨hrec.1, noNewDangling_trans _ _ _ hq hrec.2⟩

/-- The no-dangling induction for `handle` itself: with a validated
definition, starting from a nil or member node definition, the walk never
records a dangling successor lookup and never changes the definition. -/
theorem handle_no_dangling (env : Env) :
    ∀ (fuel : Nat) (st : WorkFlowAggregation) (nd? : Option NodeDefine),
      validDefine st.define = true →
      (∀ nd, nd? = some nd → nd ∈ st.define.taskNodes.map Prod.snd) →
      (handle fuel env st nd?).2.define = st.define ∧
      noNewDangling st (handle fuel env st nd?).2 := by
  intro fuel
  induction fuel with
  | zero =>
    intro st nd? hv hmem
    exact ⟨rfl, fun nm h => h⟩
  | succ fuel ih =>
    intro st nd? hv hmem
    have hF : handleProp (fun s n => handle fuel env s n) := by
      intro s n hv' hm'
      exact ih s n hv' hm'
    cases nd? with
    | none =>
      exact ⟨rfl, fun nm h => h⟩
    | some nd =>
      have hmem' := hmem nd rfl
      rcases hE : executeTask (afterCreate st nd) (initialNode st nd) nd with ⟨r, st2⟩
      have hshape := executeTask_shape (afterCreate st nd) (initialNode st nd) nd
      rw [hE] at hshape
      have hst2def : st2.define = st.define := hshape.1
      have hst2nn : noNewDangling st st2 := by
        intro nm hm
        rw [hshape.2.2.1] at hm
        simp only [afterCreate, List.mem_append] at hm
        rcases hm with (hm | hm) | hm
        · exact hm
        · simp at hm
        · simp at hm
      have hv2 : validDefine st2.define = true := by rw [hst2def]; exact hv
      have hmem2 : nd ∈ st2.define.taskNodes.map Prod.snd := by rw [hst2def]; exact hmem'
      cases r with
      | some e =>
        have hmain : handle (fuel + 1) env st (some nd) =
            (false, taskErrorWith (fun s n => handle fuel env s n) st2 st.nodes.length nd) := by
          simp only [handle, hE]
        rw [hmain]
        have hT := taskErrorWith_no_dangling (fun s n => handle fuel env s n) hF st2
          st.nodes.length nd hv2 hmem2
        exact ⟨by rw [hT.1, hst2def], noNewDangling_trans _ _ _ hst2nn hT.2⟩
      | none =>
        cases hrt : nd.returnType with
        | SyncFuncNode =>
          have hmain : handle (fuel + 1) env st (some nd) =
              handle fuel env
                (nextNode (markSyncSuccess st2 st.nodes.length) nd.successEvent).2
                (nextNode (markSyncSuccess st2 st.nodes.length) nd.successEvent).1 := by
            simp only [handle, hE, hrt, markSyncSuccess]
          rw [hmain]
          have hres := (validDefine_resolves st.define hv nd hmem').1
          have hnn := nextNode_valid (markSyncSuccess st2 st.nodes.length) nd.successEvent
            (fun h => by
              show (lookupNode st2.define nd.successEvent).isSome = true
              rw [hst2def]
              exact hres h)
          rcases hnn with ⟨hstate, hmem''⟩
          have hH := ih (nextNode (markSyncSuccess st2 st.nodes.length) nd.successEvent).2
            (nextNode (markSyncSuccess st2 st.nodes.length) nd.successEvent).1
            (by rw [hstate]; show validDefine st2.define = true; exact hv2)
            (by
              intro nd' h'
              rw [hstate]
              exact hmem'' nd' h')
          constructor
          · rw [hH.1, hstate]
            show st2.define = st.define
            exact hst2def
          · refine noNewDangling_trans _ _ _ ?_ hH.2
            rw [hstate]
            refine noNewDangling_trans _ _ _ hst2nn ?_
            exact noNewDangling_of_events_eq _ _ rfl
        | PollingNode =>
          by_cases hfin : (getNodeAt st2 st.nodes.length).status = WorkFlowStatus.Finished
          · have hmain : handle (fuel + 1) env st (some nd) =
                handle fuel env
                  (nextNode st2 nd.successEvent).2
                  (nextNode st2 nd.successEvent).1 := by
              simp only [handle, hE, hrt, hfin]
              simp
            rw [hmain]
            have hres := (validDefine_resolves st.define hv nd hmem').1
            have hnn := nextNode_valid st2 nd.successEvent
              (fun h => by rw [hst2def]; exact hres h)
            rcases hnn with ⟨hstate, hmem''⟩
            have hH := ih (nextNode st2 nd.successEvent).2 (nextNode st2 nd.successEvent).1
              (by rw [hstate]; exact hv2)
              (by
                intro nd' h'
                rw [hstate]
                exact hmem'' nd' h')
            constructor
            · rw [hH.1, hstate, hst2def]
            · refine noNewDangling_trans _ _ _ ?_ hH.2
              rw [hstate]
              exact hst2nn
          · have hmain : handle (fuel + 1) env st (some nd) =
                pollingLoopWith (fun s n => handle fuel env s n) env fuel st2
                  st.nodes.length nd 1 := by
              simp only [handle, hE, hrt]
              simp [hfin]
            rw [hmain]
            have hP := pollingLoopWith_no_dangling (fun s n => handle fuel env s n) hF env
              fuel st2 st.nodes.length nd 1 hv2 hmem2
            exact ⟨by rw [hP.1, hst2def], noNewDangling_trans _ _ _ hst2nn hP.2⟩
        | CallbackNode =>
          have hmain : handle (fuel + 1) env st (some nd) = (true, st2) := by
            simp only [handle, hE, hrt]
          rw [hmain]
          exact ⟨hst2def, hst2nn⟩

/-! Claim theorems. -/

/-- C1: for every aggregation, `handle` on a nil node definition returns
success = true and sets the workflow status to `Finished`, changing
nothing else — in particular it creates no node record and invokes no
executor (event trace and node history unchanged). -/
theorem C1_handle_nil (fuel : Nat) (env : Env) (st : WorkFlowAggregation) :
    handle (fuel + 1) env st none =
      (true, { st with flow := { st.flow with status := WorkFlowStatus.Finished } }) ∧
    (handle (fuel + 1) env st none).2.events = st.events ∧
    (handle (fuel + 1) env st none).2.nodes = st.nodes :=
  ⟨rfl, rfl, rfl⟩

/-- C5: a `SyncFuncNode` whose executor returns no error is marked
successful (status `Finished`) and `handle` recurses into the node named
by `successEvent`, returning that recursion's result; when `successEvent`
is absent the walk terminates with overall success. -/
theorem C5_sync_success (fuel : Nat) (env : Env) (st : WorkFlowAggregation)
    (nd : NodeDefine) (st2 : WorkFlowAggregation)
    (hrt : nd.returnType = NodeReturnType.SyncFuncNode)
    (hok : executeTask (afterCreate st nd) (initialNode st nd) nd = (none, st2)) :
    handle (fuel + 1) env st (some nd) =
      handle fuel env
        (nextNode (markSyncSuccess st2 st.nodes.length) nd.successEvent).2
        (nextNode (markSyncSuccess st2 st.nodes.length) nd.successEvent).1 ∧
    (getNodeAt (markSyncSuccess st2 st.nodes.length) st.nodes.length).status =
      WorkFlowStatus.Finished ∧
    (nd.successEvent = "" → lookupNode st.define "" = none →
      handle (fuel + 2) env st (some nd) =
        (true, { markSyncSuccess st2 st.nodes.length with
          flow := { (markSyncSuccess st2 st.nodes.length).flow with
            status := WorkFlowStatus.Finished } })) := by
  have key : ∀ f : Nat, handle (f + 1) env st (some nd) =
      handle f env
        (nextNode (markSyncSuccess st2 st.nodes.length) nd.successEvent).2
        (nextNode (markSyncSuccess st2 st.nodes.length) nd.successEvent).1 := by
    intro f
    simp only [handle, hok, hrt, markSyncSuccess]
  have hlen : st2.nodes.length = st.nodes.length + 1 := by
    have := (executeTask_shape (afterCreate st nd) (initialNode st nd) nd).2.1
    rw [hok] at this
    simpa [afterCreate] using this
  have hstat : (getNodeAt (markSyncSuccess st2 st.nodes.length) st.nodes.length).status =
      WorkFlowStatus.Finished := by
    rw [markSyncSuccess, getNodeAt_setNodeAt_self st2 _ _ (by omega)]
    simp [nodeSuccess]
  refine ⟨key fuel, hstat, ?_⟩
  intro hse hroot
  have hdef : st2.define = st.define := by
    have := (executeTask_shape (afterCreate st nd) (initialNode st nd) nd).1
    rw [hok] at this
    simpa [afterCreate] using this
  have hnn : nextNode (markSyncSuccess st2 st.nodes.length) nd.successEvent =
      (none, markSyncSuccess st2 st.nodes.length) := by
    simp [nextNode, hse, markSyncSuccess, setNodeAt, hdef, hroot]
  rw [show fuel + 2 = (fuel + 1) + 1 from rfl, key (fuel + 1), hnn]
  rfl

/-- C6: a node whose executor reports an error never proceeds into the
success event: `handle` routes to the task-error handler and returns
false; the handler recurses into the fail-event node when one is named
(discarding that recursion's boolean) and otherwise only records the flow
error. -/
theorem C6_executor_error (fuel : Nat) (env : Env) (st : WorkFlowAggregation)
    (nd : NodeDefine) (e : GoError) (st2 : WorkFlowAggregation)
    (hbad : executeTask (afterCreate st nd) (initialNode st nd) nd = (some e, st2)) :
    handle (fuel + 1) env st (some nd) =
      (false, handleTaskError fuel env st2 st.nodes.length nd) ∧
    (nd.failEvent ≠ "" →
      handleTaskError fuel env st2 st.nodes.length nd =
        (handle fuel env
          (nextNode (recordFlowError st2 st.nodes.length) nd.failEvent).2
          (nextNode (recordFlowError st2 st.nodes.length) nd.failEvent).1).2) ∧
    (nd.failEvent = "" →
      handleTaskError fuel env st2 st.nodes.length nd =
        recordFlowError st2 st.nodes.length) := by
  refine ⟨?_, ?_, ?_⟩
  · simp only [handle, hbad]
    rfl
  · intro h
    simp [handleTaskError, taskErrorWith, h]
  · intro h
    simp [handleTaskError, taskErrorWith, h]

/-- C7: a panicking executor is recovered at the `executeTask` boundary:
the panic is converted into a generic `TIEM_PANIC` error which
`executeTask` returns, the node record is failed with that error, and
`handle` continues along the normal error path (task-error handler,
return false) instead of crashing the owning task. -/
theorem C7_panic_recovered (fuel : Nat) (env : Env) (st : WorkFlowAggregation)
    (nd : NodeDefine) (msg : String) (n2 : WorkFlowNode) (d2 : FlowData)
    (hpanic : nd.executor (nodeProcessing (initialNode st nd)) st.flowData =
      (ExecOutcome.panicked msg, n2, d2)) :
    (executeTask (afterCreate st nd) (initialNode st nd) nd).1 =
      some (newError TiEMErrorCode.TIEM_PANIC msg) ∧
    getNodeAt (executeTask (afterCreate st nd) (initialNode st nd) nd).2 st.nodes.length =
      nodeFail n2 (newError TiEMErrorCode.TIEM_PANIC msg) ∧
    handle (fuel + 1) env st (some nd) =
      (false, handleTaskError fuel env
        (executeTask (afterCreate st nd) (initialNode st nd) nd).2 st.nodes.length nd) := by
  have h1 : (executeTask (afterCreate st nd) (initialNode st nd) nd).1 =
      some (newError TiEMErrorCode.TIEM_PANIC msg) := by
    simp [executeTask, afterCreate, hpanic]
  have h2 : getNodeAt (executeTask (afterCreate st nd) (initialNode st nd) nd).2
      st.nodes.length = nodeFail n2 (newError TiEMErrorCode.TIEM_PANIC msg) := by
    simp [executeTask, afterCreate, hpanic, getNodeAt, List.getD_eq_getElem?_getD,
      List.getElem?_set_self
        (by simp : st.nodes.length < (st.nodes ++ [nodeProcessing (initialNode st nd)]).length)]
  refine ⟨h1, h2, ?_⟩
  rcases hpair : executeTask (afterCreate st nd) (initialNode st nd) nd with ⟨r, S⟩
  rw [hpair] at h1
  have hr : r = some (newError TiEMErrorCode.TIEM_PANIC msg) := h1
  subst hr
  simp only [handle, hpair, handleTaskError]

/-- C8: `destroy` sets the workflow status to `Canceled`; when a node is
currently executing it is failed with a `TIEM_TASK_CANCELED` error
carrying the supplied reason, and when no node is current only the
workflow status changes (besides the final persistence call). -/
theorem C8_destroy (st : WorkFlowAggregation) (reason : String) :
    (destroy st reason).flow.status = WorkFlowStatus.Canceled ∧
    (∀ i, st.currentNode = some i →
      (destroy st reason).nodes =
        st.nodes.set i (nodeFail (getNodeAt st i)
          (newError TiEMErrorCode.TIEM_TASK_CANCELED reason))) ∧
    (st.currentNode = none →
      destroy st reason =
        { st with
          flow := { st.flow with status := WorkFlowStatus.Canceled }
          events := st.events ++ [Event.updateWorkFlowDetail] }) := by
  refine ⟨?_, ?_, ?_⟩
  · cases h : st.currentNode <;> simp [destroy, h, setNodeAt]
  · intro i h
    simp [destroy, h, setNodeAt, getNodeAt]
  · intro h
    simp [destroy, h]

/-- State predicted when the polling loop times out: the `maxSeq` query
events of ticks `1..maxSeq` are recorded and the node at `idx` is failed
with the polling-timeout error. -/
def timeoutState (st2 : WorkFlowAggregation) (idx maxSeq : Nat) : WorkFlowAggregation :=
  setNodeAt (addEvents st2 (queryEvents (getNodeAt st2 idx).operationID 1 maxSeq)) idx
    (nodeFail (getNodeAt st2 idx) (codeError TiEMErrorCode.TIEM_WORKFLOW_NODE_POLLING_TIME_OUT))

/-- State predicted when the oracle reports `Finished` on tick `K`: the
`K` query events of ticks `1..K` are recorded and the node at `idx` is
marked successful, with the reported result attached when non-empty. -/
def pollFinishedState (st2 : WorkFlowAggregation) (idx K : Nat) (res : String) :
    WorkFlowAggregation :=
  setNodeAt (addEvents st2 (queryEvents (getNodeAt st2 idx).operationID 1 K)) idx
    (nodeSuccess (getNodeAt st2 idx) (if res ≠ "" then some res else none))

/-- C2: a run whose start node's executor reports an error, with a fail
event naming a `SyncFuncNode` whose executor succeeds and whose success
event is empty, ends with `start` returning a top-level false and the
workflow status `Error` (applied by `complete` after the recursive walk
unwinds), even though the fail-path node record itself ends `Finished` —
while the start node record ends `Error`. -/
theorem C2_failpath_scenario (fuel : Nat) (env : Env) (st : WorkFlowAggregation)
    (sNd cNd : NodeDefine) (c : String) (e : GoError) (st2 st4 : WorkFlowAggregation)
    (hs : lookupNode st.define "start" = some sNd)
    (hbad : executeTask (afterCreate (startProcessing st) sNd)
      (initialNode (startProcessing st) sNd) sNd = (some e, st2))
    (hfe : sNd.failEvent = c) (hc : c ≠ "")
    (hcn : lookupNode st.define c = some cNd)
    (hrtc : cNd.returnType = NodeReturnType.SyncFuncNode)
    (hokc : executeTask (afterCreate (recordFlowError st2 st.nodes.length) cNd)
      (initialNode (recordFlowError st2 st.nodes.length) cNd) cNd = (none, st4))
    (hse : cNd.successEvent = "")
    (hroot : lookupNode st.define "" = none) :
    (start (fuel + 3) env st).1 = false ∧
    (start (fuel + 3) env st).2.flow.status = WorkFlowStatus.Error ∧
    (getNodeAt (start (fuel + 3) env st).2 (st.nodes.length + 1)).status =
      WorkFlowStatus.Finished ∧
    (getNodeAt (start (fuel + 3) env st).2 st.nodes.length).status = WorkFlowStatus.Error := by
  have hdef2 : st2.define = st.define := by
    have := (executeTask_shape (afterCreate (startProcessing st) sNd)
      (initialNode (startProcessing st) sNd) sNd).1
    rw [hbad] at this
    simpa [afterCreate_define, startProcessing_define] using this
  have hlen2 : st2.nodes.length = st.nodes.length + 1 := by
    have := (executeTask_shape (afterCreate (startProcessing st) sNd)
      (initialNode (startProcessing st) sNd) sNd).2.1
    rw [hbad] at this
    simpa [afterCreate_nodes, startProcessing_nodes] using this
  have hdef4 : st4.define = st.define := by
    have := (executeTask_shape (afterCreate (recordFlowError st2 st.nodes.length) cNd)
      (initialNode (recordFlowError st2 st.nodes.length) cNd) cNd).1
    rw [hokc] at this
    rw [this, afterCreate_define, recordFlowError_define, hdef2]
  have hlen4 : st4.nodes.length = st.nodes.length + 2 := by
    have := (executeTask_shape (afterCreate (recordFlowError st2 st.nodes.length) cNd)
      (initialNode (recordFlowError st2 st.nodes.length) cNd) cNd).2.1
    rw [hokc] at this
    rw [this, afterCreate_nodes, recordFlowError_nodes, hlen2]
  have hlook : lookupNode (recordFlowError st2 st.nodes.length).define c = some cNd := by
    rw [recordFlowError_define, hdef2]
    exact hcn
  have hroot4 : lookupNode st4.define "" = none := by
    rw [hdef4]
    exact hroot
  have e3 : (fuel + 3) = (fuel + 2) + 1 := rfl
  have e2 : (fuel + 2) = (fuel + 1) + 1 := rfl
  have h1 : handle (fuel + 3) env (startProcessing st) (some sNd) =
      (false, (handle (fuel + 2) env (recordFlowError st2 st.nodes.length) (some cNd)).2) := by
    rw [e3]
    simp only [handle, hbad, startProcessing_nodes]
    simp only [taskErrorWith, hfe]
    rw [if_pos hc]
    simp only [nextNode, hlook]
  have h2 : handle (fuel + 2) env (recordFlowError st2 st.nodes.length) (some cNd) =
      handle (fuel + 1) env
        (setNodeAt st4 (st.nodes.length + 1)
          (nodeSuccess (getNodeAt st4 (st.nodes.length + 1)) none)) none := by
    have hroot5 : lookupNode (setNodeAt st4 (st.nodes.length + 1)
        (nodeSuccess (getNodeAt st4 (st.nodes.length + 1)) none)).define "" = none := by
      rw [setNodeAt_define]
      exact hroot4
    rw [e2]
    simp only [handle, hokc, hrtc, recordFlowError_nodes, hlen2]
    simp only [nextNode, hse, hroot5]
    simp
  have h3 : handle (fuel + 1) env
      (setNodeAt st4 (st.nodes.length + 1)
        (nodeSuccess (getNodeAt st4 (st.nodes.length + 1)) none)) none =
      (true, { setNodeAt st4 (st.nodes.length + 1)
          (nodeSuccess (getNodeAt st4 (st.nodes.length + 1)) none) with
        flow := { (setNodeAt st4 (st.nodes.length + 1)
            (nodeSuccess (getNodeAt st4 (st.nodes.length + 1)) none)).flow with
          status := WorkFlowStatus.Finished } }) := rfl
  have hstart : start (fuel + 3) env st =
      ((handle (fuel + 3) env (startProcessing st) (some sNd)).1,
        { complete (handle (fuel + 3) env (startProcessing st) (some sNd)).2
            (handle (fuel + 3) env (startProcessing st) (some sNd)).1 with
          events := (complete (handle (fuel + 3) env (startProcessing st) (some sNd)).2
            (handle (fuel + 3) env (startProcessing st) (some sNd)).1).events ++
              [Event.updateWorkFlowDetail] }) := by
    simp only [start, startProcessing_define, hs]
  rw [hstart, h1, h2, h3]
  have hnodes3 : (getNodeAt st4 st.nodes.length).status = WorkFlowStatus.Error := by
    have hpres := executeTask_preserves_earlier (afterCreate (recordFlowError st2 st.nodes.length) cNd)
      (initialNode (recordFlowError st2 st.nodes.length) cNd) cNd st.nodes.length
      (by rw [afterCreate_nodes, recordFlowError_nodes, hlen2]; omega)
    rw [hokc] at hpres
    rw [hpres]
    have herr := executeTask_err_status (afterCreate (startProcessing st) sNd)
      (initialNode (startProcessing st) sNd) sNd e st2 hbad
    simpa [afterCreate_nodes, startProcessing_nodes, afterCreate, recordFlowError,
      getNodeAt] using herr
  refine ⟨rfl, by simp [complete], ?_, ?_⟩
  · show (getNodeAt (setNodeAt st4 (st.nodes.length + 1)
        (nodeSuccess (getNodeAt st4 (st.nodes.length + 1)) none)) (st.nodes.length + 1)).status =
      WorkFlowStatus.Finished
    rw [getNodeAt_setNodeAt_self _ _ _ (by omega)]
    simp [nodeSuccess]
  · show (getNodeAt (setNodeAt st4 (st.nodes.length + 1)
        (nodeSuccess (getNodeAt st4 (st.nodes.length + 1)) none)) st.nodes.length).status =
      WorkFlowStatus.Error
    rw [getNodeAt_setNodeAt_ne _ _ _ _ (by omega)]
    exact hnodes3

/-- C3: a `PollingNode` whose executor returns no error and does not leave
the node `Finished`, polled against an oracle that always reports
`Running`, queries the oracle exactly `maxPollingSequence` times (ticks
`1..max`); on tick `max + 1` the node is failed with the polling-timeout
error and the task-error handler is invoked, `handle` returning false —
with no further oracle query when no fail event is named. -/
theorem C3_polling_timeout (fuel : Nat) (env : Env) (st : WorkFlowAggregation)
    (nd : NodeDefine) (st2 : WorkFlowAggregation)
    (hrt : nd.returnType = NodeReturnType.PollingNode)
    (hok : executeTask (afterCreate st nd) (initialNode st nd) nd = (none, st2))
    (hnf : (getNodeAt st2 st.nodes.length).status ≠ WorkFlowStatus.Finished)
    (hrun : ∀ j, 1 ≤ j → j ≤ env.maxPollingSequence →
      (env.oracle j (getNodeAt st2 st.nodes.length).operationID).isRunningReply = true)
    (hfuel : env.maxPollingSequence + 1 ≤ fuel) :
    handle (fuel + 1) env st (some nd) =
      (false, handleTaskError fuel env
        (timeoutState st2 st.nodes.length env.maxPollingSequence) st.nodes.length nd) ∧
    (timeoutState st2 st.nodes.length env.maxPollingSequence).events =
      st2.events ++
        queryEvents (getNodeAt st2 st.nodes.length).operationID 1 env.maxPollingSequence ∧
    getNodeAt (timeoutState st2 st.nodes.length env.maxPollingSequence) st.nodes.length =
      nodeFail (getNodeAt st2 st.nodes.length)
        (codeError TiEMErrorCode.TIEM_WORKFLOW_NODE_POLLING_TIME_OUT) ∧
    (nd.failEvent = "" →
      (handle (fuel + 1) env st (some nd)).2.events =
        st2.events ++
          queryEvents (getNodeAt st2 st.nodes.length).operationID 1 env.maxPollingSequence) := by
  have hlen : st2.nodes.length = st.nodes.length + 1 := by
    have := (executeTask_shape (afterCreate st nd) (initialNode st nd) nd).2.1
    rw [hok] at this
    simpa [afterCreate] using this
  have hopen : handle (fuel + 1) env st (some nd) =
      pollingLoopWith (fun s n => handle fuel env s n) env fuel st2 st.nodes.length nd 1 := by
    simp only [handle, hok, hrt]
    simp [hnf]
  have hsplit : fuel = env.maxPollingSequence + (fuel - env.maxPollingSequence) := by omega
  have hadv := pollingLoopWith_running_advance (fun s n => handle fuel env s n) env
    st.nodes.length nd env.maxPollingSequence (fuel - env.maxPollingSequence) 1 st2
    (by intro j h1 h2; exact hrun j h1 (by omega)) (by omega)
  have hrem : fuel - env.maxPollingSequence = (fuel - env.maxPollingSequence - 1) + 1 := by
    omega
  have hgt : 1 + env.maxPollingSequence > env.maxPollingSequence := by omega
  have hclose : pollingLoopWith (fun s n => handle fuel env s n) env
      (fuel - env.maxPollingSequence)
      (addEvents st2 (queryEvents (getNodeAt st2 st.nodes.length).operationID 1
        env.maxPollingSequence)) st.nodes.length nd (1 + env.maxPollingSequence) =
      (false, handleTaskError fuel env
        (timeoutState st2 st.nodes.length env.maxPollingSequence) st.nodes.length nd) := by
    rw [hrem]
    simp [pollingLoopWith, hgt, timeoutState, handleTaskError, getNodeAt_addEvents]
  rw [← hsplit] at hadv
  have hmain : handle (fuel + 1) env st (some nd) =
      (false, handleTaskError fuel env
        (timeoutState st2 st.nodes.length env.maxPollingSequence) st.nodes.length nd) := by
    rw [hopen, hadv, hclose]
  have hevents : (timeoutState st2 st.nodes.length env.maxPollingSequence).events =
      st2.events ++
        queryEvents (getNodeAt st2 st.nodes.length).operationID 1 env.maxPollingSequence := by
    simp [timeoutState, setNodeAt, addEvents]
  have hnode : getNodeAt (timeoutState st2 st.nodes.length env.maxPollingSequence)
      st.nodes.length =
      nodeFail (getNodeAt st2 st.nodes.length)
        (codeError TiEMErrorCode.TIEM_WORKFLOW_NODE_POLLING_TIME_OUT) := by
    rw [timeoutState, getNodeAt_setNodeAt_self _ _ _ (by simp [addEvents]; omega)]
  refine ⟨hmain, hevents, hnode, ?_⟩
  intro hfe
  rw [hmain]
  simp [handleTaskError, taskErrorWith, hfe, recordFlowError, hevents]

/-- C4: a `PollingNode` whose executor returns no error and does not leave
the node `Finished`, when the oracle reports `Finished` on the Kth query
(K at most the maximum sequence), is marked successful — with the
oracle's result string attached when it is non-empty and no payload when
it is empty — and `handle` recurses into the success-event node,
returning that recursion's result. -/
theorem C4_polling_finished (fuel : Nat) (env : Env) (st : WorkFlowAggregation)
    (nd : NodeDefine) (st2 : WorkFlowAggregation) (K : Nat) (res es : String)
    (hrt : nd.returnType = NodeReturnType.PollingNode)
    (hok : executeTask (afterCreate st nd) (initialNode st nd) nd = (none, st2))
    (hnf : (getNodeAt st2 st.nodes.length).status ≠ WorkFlowStatus.Finished)
    (hK1 : 1 ≤ K) (hKm : K ≤ env.maxPollingSequence)
    (hrun : ∀ j, 1 ≤ j → j < K →
      (env.oracle j (getNodeAt st2 st.nodes.length).operationID).isRunningReply = true)
    (hfin : env.oracle K (getNodeAt st2 st.nodes.length).operationID =
      OracleOutcome.reply ⟨OpStatus.Finished, res, es⟩)
    (hfuel : K ≤ fuel) :
    handle (fuel + 1) env st (some nd) =
      handle fuel env
        (nextNode (pollFinishedState st2 st.nodes.length K res) nd.successEvent).2
        (nextNode (pollFinishedState st2 st.nodes.length K res) nd.successEvent).1 ∧
    getNodeAt (pollFinishedState st2 st.nodes.length K res) st.nodes.length =
      nodeSuccess (getNodeAt st2 st.nodes.length) (if res ≠ "" then some res else none) ∧
    (pollFinishedState st2 st.nodes.length K res).events =
      st2.events ++ queryEvents (getNodeAt st2 st.nodes.length).operationID 1 K := by
  have hlen : st2.nodes.length = st.nodes.length + 1 := by
    have := (executeTask_shape (afterCreate st nd) (initialNode st nd) nd).2.1
    rw [hok] at this
    simpa [afterCreate] using this
  have hopen : handle (fuel + 1) env st (some nd) =
      pollingLoopWith (fun s n => handle fuel env s n) env fuel st2 st.nodes.length nd 1 := by
    simp only [handle, hok, hrt]
    simp [hnf]
  have hsplit : fuel = (K - 1) + (fuel - (K - 1)) := by omega
  have hadv := pollingLoopWith_running_advance (fun s n => handle fuel env s n) env
    st.nodes.length nd (K - 1) (fuel - (K - 1)) 1 st2
    (by intro j h1 h2; exact hrun j h1 (by omega)) (by omega)
  have hseq : 1 + (K - 1) = K := by omega
  have hrem : fuel - (K - 1) = (fuel - K) + 1 := by omega
  have hle : ¬ K > env.maxPollingSequence := by omega
  have hq : queryEvents (getNodeAt st2 st.nodes.length).operationID 1 (K - 1) ++
      [Event.oracleQueried (getNodeAt st2 st.nodes.length).operationID K] =
      queryEvents (getNodeAt st2 st.nodes.length).operationID 1 K := by
    have := queryEvents_snoc (getNodeAt st2 st.nodes.length).operationID (K - 1) 1
    rw [show (1 : Nat) + (K - 1) = K from by omega] at this
    rw [show (K - 1) + 1 = K from by omega] at this
    exact this
  have hclose : pollingLoopWith (fun s n => handle fuel env s n) env ((fuel - K) + 1)
      (addEvents st2 (queryEvents (getNodeAt st2 st.nodes.length).operationID 1 (K - 1)))
      st.nodes.length nd K =
      handle fuel env
        (nextNode (pollFinishedState st2 st.nodes.length K res) nd.successEvent).2
        (nextNode (pollFinishedState st2 st.nodes.length K res) nd.successEvent).1 := by
    simp only [pollingLoopWith, if_neg hle, getNodeAt_addEvents, hfin]
    simp only [pollFinishedState, addEvents, setNodeAt, getNodeAt_addEvents,
      List.append_assoc, hq]
    simp [getNodeAt]
  rw [← hsplit] at hadv
  rw [hseq, hrem] at hadv
  refine ⟨?_, ?_, ?_⟩
  · rw [hopen, hadv, hclose]
  · rw [pollFinishedState, getNodeAt_setNodeAt_self _ _ _ (by simp [addEvents]; omega)]
  · simp [pollFinishedState, setNodeAt, addEvents]

theorem complete_events (st : WorkFlowAggregation) (b : Bool) :
    (complete st b).events = st.events := by
  cases b <;> rfl

/-- C9: for a validated workflow definition (validation modelled from the
spec, since the definition builder is not under `src/`), every non-empty
`successEvent` / `failEvent` of every task node resolves to a key present
in `taskNodes`, and consequently a run of `start` never performs a
dangling successor lookup (records no `danglingLookup` event). -/
theorem C9_validation_no_dangling (fuel : Nat) (env : Env) (st : WorkFlowAggregation)
    (hv : validDefine st.define = true) :
    (∀ p ∈ st.define.taskNodes,
      (p.2.successEvent ≠ "" → (lookupNode st.define p.2.successEvent).isSome = true) ∧
      (p.2.failEvent ≠ "" → (lookupNode st.define p.2.failEvent).isSome = true)) ∧
    (∀ nm, Event.danglingLookup nm ∈ (start fuel env st).2.events →
      Event.danglingLookup nm ∈ st.events) := by
  constructor
  · intro p hp
    exact validDefine_resolves st.define hv p.2 (List.mem_map_of_mem Prod.snd hp)
  · intro nm hm
    have hH := handle_no_dangling env fuel (startProcessing st)
      (lookupNode (startProcessing st).define "start")
      hv
      (fun nd h => lookupNode_mem _ _ _ h)
    have hev : (start fuel env st).2.events =
        (handle fuel env (startProcessing st)
          (lookupNode (startProcessing st).define "start")).2.events ++
          [Event.updateWorkFlowDetail] := by
      simp only [start, complete_events]
    rw [hev] at hm
    rcases List.mem_append.mp hm with hm | hm
    · exact hH.2 nm hm
    · simp at hm

/-- C10 (amended): a node whose return type is neither `SyncFuncNode` nor
`PollingNode` and whose executor returns no error makes `handle` return
success = true with the state exactly as `executeTask` left it: the node
is not marked successful by the engine and no successor is looked up or
executed, and the node record keeps whatever status the executor left
(`Processing` unless the executor itself changed it). -/
theorem C10_callback_passthrough (fuel : Nat) (env : Env) (st : WorkFlowAggregation)
    (nd : NodeDefine) (st2 : WorkFlowAggregation)
    (hrt : nd.returnType = NodeReturnType.CallbackNode)
    (hok : executeTask (afterCreate st nd) (initialNode st nd) nd = (none, st2)) :
    handle (fuel + 1) env st (some nd) = (true, st2) ∧
    st2.events = st.events ++ [Event.createWorkFlowNode nd.name, Event.updateWorkFlowDetail,
      Event.executorInvoked nd.name] ∧
    getNodeAt st2 st.nodes.length =
      (nd.executor (nodeProcessing (initialNode st nd)) st.flowData).2.1 ∧
    ((nd.executor (nodeProcessing (initialNode st nd)) st.flowData).2.1.status =
        WorkFlowStatus.Processing →
      (getNodeAt st2 st.nodes.length).status = WorkFlowStatus.Processing) := by
  have h1 : handle (fuel + 1) env st (some nd) = (true, st2) := by
    simp only [handle, hok, hrt]
  have h2 : st2.events = st.events ++ [Event.createWorkFlowNode nd.name,
      Event.updateWorkFlowDetail, Event.executorInvoked nd.name] := by
    have := (executeTask_shape (afterCreate st nd) (initialNode st nd) nd).2.2.1
    rw [hok] at this
    simpa [afterCreate] using this
  have h3 : getNodeAt st2 st.nodes.length =
      (nd.executor (nodeProcessing (initialNode st nd)) st.flowData).2.1 := by
    rcases hex : nd.executor (nodeProcessing (initialNode st nd)) st.flowData with ⟨o, n2, d2⟩
    cases o <;> simp [executeTask, afterCreate, hex] at hok
    rw [← hok]
    simp [getNodeAt, List.getD_eq_getElem?_getD]
  exact ⟨h1, h2, h3, fun hp => by rw [h3]; exact hp⟩

/-! Concrete fixtures for the witness theorems and the counterexample. -/

def wOkExec : Executor := fun n d => (ExecOutcome.ok, n, d)

def wErrExec : Executor := fun n d =>
  (ExecOutcome.err { code := none, msg := "boom" }, n, d)

def wPanicExec : Executor := fun n d => (ExecOutcome.panicked "oops", n, d)

def wPollExec : Executor := fun n d =>
  (ExecOutcome.ok, { n with operationID := "op1" }, d)

def wStatusExec : Executor := fun n d =>
  (ExecOutcome.ok, { n with status := WorkFlowStatus.Finished }, d)

def wBoom : GoError := { code := none, msg := "boom" }

def wNode (nm se fe : String) (rt : NodeReturnType) (ex : Executor) : NodeDefine :=
  { name := nm, successEvent := se, failEvent := fe, returnType := rt, executor := ex }

def wFlow : WorkFlow :=
  { id := "wf1", name := "flow", tenantId := "t1", bizID := "b1", bizType := "cluster"
    status := WorkFlowStatus.Initializing, context := "" }

def wDefine : WorkFlowDefine :=
  { flowName := "flow"
    taskNodes :=
      [("start", wNode "start" "create_success" "fail" NodeReturnType.SyncFuncNode wOkExec),
       ("create_success", wNode "create_success" "" "" NodeReturnType.SyncFuncNode wOkExec),
       ("fail", wNode "fail" "" "" NodeReturnType.SyncFuncNode wOkExec)] }

def wSt : WorkFlowAggregation :=
  { flow := wFlow, define := wDefine, currentNode := none, nodes := [], flowData := []
    flowError := none, events := [] }

def wEnvRunning : Env :=
  { oracle := fun _ _ =>
      OracleOutcome.reply { status := OpStatus.Running, result := "", errorStr := "" }
    maxPollingSequence := 3 }

def wEnvFinish : Env :=
  { oracle := fun seq _ =>
      if seq < 2 then OracleOutcome.reply { status := OpStatus.Running, result := "", errorStr := "" }
      else OracleOutcome.reply { status := OpStatus.Finished, result := "done", errorStr := "" }
    maxPollingSequence := 3 }

def w2start : NodeDefine := wNode "start" "" "cleanup" NodeReturnType.SyncFuncNode wErrExec

def w2cleanup : NodeDefine := wNode "cleanup" "" "" NodeReturnType.SyncFuncNode wOkExec

def w2Define : WorkFlowDefine :=
  { flowName := "flow2", taskNodes := [("start", w2start), ("cleanup", w2cleanup)] }

def w2St : WorkFlowAggregation :=
  { flow := wFlow, define := w2Define, currentNode := none, nodes := [], flowData := []
    flowError := none, events := [] }

def w3Nd : NodeDefine := wNode "poll" "" "" NodeReturnType.PollingNode wPollExec

def w5Nd : NodeDefine := wNode "start" "create_success" "" NodeReturnType.SyncFuncNode wOkExec

def w6Nd : NodeDefine := wNode "solo" "" "" NodeReturnType.SyncFuncNode wErrExec

def w7Nd : NodeDefine := wNode "p" "" "" NodeReturnType.SyncFuncNode wPanicExec

def w8St : WorkFlowAggregation :=
  { flow := wFlow, define := wDefine, currentNode := some 0
    nodes := [{ tenantId := "t1", status := WorkFlowStatus.Processing, name := "start"
                bizID := "b1", parentID := "wf1", returnType := NodeReturnType.SyncFuncNode
                result := "", operationID := "" }]
    flowData := [], flowError := none, events := [] }

def w10Nd : NodeDefine := wNode "cb" "next" "" NodeReturnType.CallbackNode wStatusExec

/-! Witness theorems: each applies its claim theorem at a concrete input,
discharging every hypothesis there. -/

theorem C2_failpath_scenario_witness :
    (start 3 wEnvRunning w2St).1 = false ∧
    (start 3 wEnvRunning w2St).2.flow.status = WorkFlowStatus.Error ∧
    (getNodeAt (start 3 wEnvRunning w2St).2 1).status = WorkFlowStatus.Finished ∧
    (getNodeAt (start 3 wEnvRunning w2St).2 0).status = WorkFlowStatus.Error := by
  have h := C2_failpath_scenario 0 wEnvRunning w2St w2start w2cleanup "cleanup" wBoom
    (executeTask (afterCreate (startProcessing w2St) w2start)
      (initialNode (startProcessing w2St) w2start) w2start).2
    (executeTask (afterCreate (recordFlowError (executeTask (afterCreate (startProcessing w2St) w2start)
      (initialNode (startProcessing w2St) w2start) w2start).2 w2St.nodes.length) w2cleanup)
      (initialNode (recordFlowError (executeTask (afterCreate (startProcessing w2St) w2start)
        (initialNode (startProcessing w2St) w2start) w2start).2 w2St.nodes.length) w2cleanup)
      w2cleanup).2
    rfl rfl rfl (by decide) rfl rfl rfl rfl rfl
  simpa [w2St] using h

theorem C3_polling_timeout_witness :
    (handle 5 wEnvRunning wSt (some w3Nd)).1 = false := by
  have h := C3_polling_timeout 4 wEnvRunning wSt w3Nd
    (executeTask (afterCreate wSt w3Nd) (initialNode wSt w3Nd) w3Nd).2
    rfl rfl (by decide) (fun j _ _ => rfl) (by decide)
  rw [show (5 : Nat) = 4 + 1 from rfl, h.1]

theorem C4_polling_finished_witness :
    getNodeAt (pollFinishedState
        (executeTask (afterCreate wSt w3Nd) (initialNode wSt w3Nd) w3Nd).2
        wSt.nodes.length 2 "done") wSt.nodes.length =
      nodeSuccess (getNodeAt (executeTask (afterCreate wSt w3Nd) (initialNode wSt w3Nd) w3Nd).2
        wSt.nodes.length) (if "done" ≠ "" then some "done" else none) := by
  refine (C4_polling_finished 2 wEnvFinish wSt w3Nd
    (executeTask (afterCreate wSt w3Nd) (initialNode wSt w3Nd) w3Nd).2 2 "done" ""
    rfl rfl (by decide) (by decide) (by decide) ?_ rfl (by decide)).2.1
  intro j h1 h2
  have hj : j = 1 := by omega
  subst hj
  rfl

theorem C5_sync_success_witness :
    (getNodeAt (markSyncSuccess
        (executeTask (afterCreate wSt w5Nd) (initialNode wSt w5Nd) w5Nd).2 wSt.nodes.length)
      wSt.nodes.length).status = WorkFlowStatus.Finished :=
  (C5_sync_success 3 wEnvRunning wSt w5Nd
    (executeTask (afterCreate wSt w5Nd) (initialNode wSt w5Nd) w5Nd).2 rfl rfl).2.1

theorem C6_executor_error_witness :
    handleTaskError 3 wEnvRunning
        (executeTask (afterCreate wSt w6Nd) (initialNode wSt w6Nd) w6Nd).2
        wSt.nodes.length w6Nd =
      recordFlowError (executeTask (afterCreate wSt w6Nd) (initialNode wSt w6Nd) w6Nd).2
        wSt.nodes.length :=
  (C6_executor_error 3 wEnvRunning wSt w6Nd wBoom
    (executeTask (afterCreate wSt w6Nd) (initialNode wSt w6Nd) w6Nd).2 rfl).2.2 rfl

theorem C7_panic_recovered_witness :
    (executeTask (afterCreate wSt w7Nd) (initialNode wSt w7Nd) w7Nd).1 =
      some (newError TiEMErrorCode.TIEM_PANIC "oops") :=
  (C7_panic_recovered 3 wEnvRunning wSt w7Nd "oops"
    (nodeProcessing (initialNode wSt w7Nd)) wSt.flowData rfl).1

theorem C8_destroy_witness :
    (destroy w8St "stop").flow.status = WorkFlowStatus.Canceled ∧
    (destroy w8St "stop").nodes = w8St.nodes.set 0
      (nodeFail (getNodeAt w8St 0) (newError TiEMErrorCode.TIEM_TASK_CANCELED "stop")) :=
  ⟨(C8_destroy w8St "stop").1, (C8_destroy w8St "stop").2.1 0 rfl⟩

theorem C9_validation_no_dangling_witness :
    Event.danglingLookup "x" ∉ (start 5 wEnvRunning wSt).2.events := by
  intro hm
  have h := (C9_validation_no_dangling 5 wEnvRunning wSt (by decide)).2 "x" hm
  simp [wSt] at h

/-- Counterexample to C10 as frozen: a node whose return type is neither
`SyncFuncNode` nor `PollingNode` and whose executor returns no error but
sets the node status itself — `handle` returns true without touching a
successor, yet the node record is left `Finished`, not `Processing` as
the claim states. -/
theorem C10_processing_cex :
    (executeTask (afterCreate wSt w10Nd) (initialNode wSt w10Nd) w10Nd).1 = none ∧
    (handle 2 wEnvRunning wSt (some w10Nd)).1 = true ∧
    (getNodeAt (handle 2 wEnvRunning wSt (some w10Nd)).2 0).status = WorkFlowStatus.Finished ∧
    (getNodeAt (handle 2 wEnvRunning wSt (some w10Nd)).2 0).status ≠ WorkFlowStatus.Processing :=
  ⟨rfl, rfl, rfl, by decide⟩

theorem C10_callback_passthrough_witness :
    handle 2 wEnvRunning wSt (some w10Nd) =
      (true, (executeTask (afterCreate wSt w10Nd) (initialNode wSt w10Nd) w10Nd).2) :=
  (C10_callback_passthrough 1 wEnvRunning wSt w10Nd
    (executeTask (afterCreate wSt w10Nd) (initialNode wSt w10Nd) w10Nd).2 rfl rfl).1

end WorkflowEngine
